import Mathlib

/-!
Shallow embedding of the JudiciAIre backend, src/backend/app.py: the Mongo
conversations collection with its access primitives, the POST /chat handler
(function chat, lines 410-461), the POST /save-convo handler (function
save_convo, lines 374-407) and the require_auth decorator (lines 80-130).
External collaborators (the Hugging Face inference call, the Clerk lookup,
the Mongo connection) are modelled as Except-returning parameters;
timestamps are modelled as Nat.
-/

namespace JudiciAIre

/-- A message embedded in a conversation document. The chat route writes the
fields sender and text (sender is the string "user" or "bot"). -/
structure StoredMessage where
  sender : String
  text : String
deriving DecidableEq, Repr

/-- A document of the conversations collection. The chat route inserts
documents without a user_id field while save_convo inserts documents with
one, so user_id is optional here. -/
structure ConvoDoc where
  conversation_id : String
  user_id : Option String
  title : String
  messages : List StoredMessage
  created_at : Nat
  updated_at : Nat
deriving DecidableEq, Repr

/-- The conversations collection, kept in insertion order. -/
abbrev ConvoStore := List ConvoDoc

/-- Mongo find_one: the first document satisfying the filter, if any. -/
def find_one (p : ConvoDoc → Bool) : ConvoStore → Option ConvoDoc
  | [] => none
  | d :: ds => if p d then some d else find_one p ds

/-- Mongo update_one without upsert: rewrite the first document satisfying
the filter and leave the rest alone; when no document matches, the
collection is unchanged (matched_count is 0 and nothing is created). -/
def update_one (p : ConvoDoc → Bool) (f : ConvoDoc → ConvoDoc) : ConvoStore → ConvoStore
  | [] => []
  | d :: ds => if p d then f d :: ds else d :: update_one p f ds

/-- Mongo insert_one under the unique index on conversation_id created at
app.py line 67: the insert raises a duplicate-key error whenever a document
with the same conversation_id already exists, regardless of user_id. -/
def insert_one (doc : ConvoDoc) (store : ConvoStore) : Except String ConvoStore :=
  if store.any (fun d => d.conversation_id == doc.conversation_id) then
    Except.error "duplicate key"
  else
    Except.ok (store ++ [doc])

/-- The JSON body of a POST /chat request: the handler reads the keys
inputs, conversation_id (default None) and is_temp (default True). -/
structure ChatRequest where
  inputs : String
  conversation_id : Option String
  is_temp : Option Bool
deriving DecidableEq, Repr

/-- The JSON body the chat route returns: a response with an optional
conversation_id key on success, or an error object with details. -/
inductive ChatBody
  | ok (response : String) (conversation_id : Option String)
  | err (msg : String) (details : String)
deriving DecidableEq, Repr

/-- The observable outcome of one chat request: HTTP status, JSON body, and
the state of the conversations collection afterwards. -/
structure ChatOutcome where
  status : Nat
  body : ChatBody
  store : ConvoStore
deriving DecidableEq, Repr

/-- The chat route, app.py lines 410-461. infer models
call_huggingface_chat_model and either yields the generated text or raises
with an upstream detail string; freshId models str(uuid.uuid4()); now models
datetime.now. Python truthiness of conversation_id makes None and the empty
string both take the create branch; is_temp defaults to True when the key is
absent. A duplicate-key failure of the insert would be an uncaught exception,
modelled as a 500 outcome that leaves the store unchanged. -/
def chat (infer : String → Except String String) (freshId : String) (now : Nat)
    (store : ConvoStore) (req : ChatRequest) : ChatOutcome :=
  match infer req.inputs with
  | Except.error e => ⟨500, ChatBody.err "Model inference failed" e, store⟩
  | Except.ok response_text =>
    if (req.is_temp.getD true) = false then
      if req.conversation_id.getD "" = "" then
        let conversation_id := freshId
        let doc : ConvoDoc :=
          { conversation_id := conversation_id
            user_id := none
            title := req.inputs.take 50
            messages := [⟨"user", req.inputs⟩, ⟨"bot", response_text⟩]
            created_at := now
            updated_at := now }
        match insert_one doc store with
        | Except.ok store1 => ⟨200, ChatBody.ok response_text (some conversation_id), store1⟩
        | Except.error e => ⟨500, ChatBody.err "Internal Server Error" e, store⟩
      else
        let cid := req.conversation_id.getD ""
        let store1 := update_one (fun d => d.conversation_id == cid)
          (fun d =>
            { d with
              messages := d.messages ++ [⟨"user", req.inputs⟩, ⟨"bot", response_text⟩]
              updated_at := now }) store
        ⟨200, ChatBody.ok response_text (some cid), store1⟩
    else
      ⟨200, ChatBody.ok response_text none, store⟩

/-- The JSON body of a POST /save-convo request. Each field is absent or a
value; the handler checks Python truthiness of all four. -/
structure SaveConvoRequest where
  conversationId : Option String
  userId : Option String
  title : Option String
  messages : Option (List StoredMessage)
deriving DecidableEq, Repr

/-- Python truthiness of an optional string: absent and empty are falsy. -/
def truthyStr : Option String → Bool
  | none => false
  | some s => !(s == "")

/-- Python truthiness of an optional list: absent and empty are falsy. -/
def truthyList : Option (List StoredMessage) → Bool
  | none => false
  | some l => !l.isEmpty

/-- The JSON body the save-convo route returns. -/
inductive SaveBody
  | success (conversationId : String)
  | err (msg : String)
deriving DecidableEq, Repr

/-- The observable outcome of one save-convo request. -/
structure SaveOutcome where
  status : Nat
  body : SaveBody
  store : ConvoStore
deriving DecidableEq, Repr

/-- The save-convo route, app.py lines 374-407. After the all-fields check it
looks the conversation up by conversation_id alone; an existing document is
rewritten wholesale (a Mongo set of conversation_id, user_id, title, messages
and updated_at, so the caller-supplied messages list replaces the stored one),
otherwise a new document is inserted with created_at = updated_at = now. The
unique index makes the insert in the none branch safe because find_one just
found no match; the unreachable duplicate branch is modelled as a 500. -/
def save_convo (now : Nat) (store : ConvoStore) (req : SaveConvoRequest) : SaveOutcome :=
  if !(truthyStr req.conversationId && truthyStr req.userId && truthyStr req.title
        && truthyList req.messages) then
    ⟨400, SaveBody.err "Missing fields", store⟩
  else
    let conversation_id := req.conversationId.getD ""
    let user_id := req.userId.getD ""
    let title := req.title.getD ""
    let messages := req.messages.getD []
    match find_one (fun d => d.conversation_id == conversation_id) store with
    | some _ =>
      let store1 := update_one (fun d => d.conversation_id == conversation_id)
        (fun d =>
          { d with
            user_id := some user_id
            title := title
            messages := messages
            updated_at := now }) store
      ⟨200, SaveBody.success conversation_id, store1⟩
    | none =>
      let doc : ConvoDoc :=
        { conversation_id := conversation_id
          user_id := some user_id
          title := title
          messages := messages
          created_at := now
          updated_at := now }
      match insert_one doc store with
      | Except.ok store1 => ⟨201, SaveBody.success conversation_id, store1⟩
      | Except.error e => ⟨500, SaveBody.err e, store⟩

/-- A document of the users collection, as written by require_auth. -/
structure UserDoc where
  user_id : String
  email : Option String
  first_name : Option String
  last_name : Option String
  created_at : Nat
  last_active : Nat
deriving DecidableEq, Repr

/-- The external collaborators the user-record block of require_auth calls.
Each pymongo or Clerk call is blocking I/O that may raise, so each is
modelled as Except-returning: findUser and touchUser over the users
collection, insertUser for the create path, clerkFetch returning the Clerk
profile (email, first name, last name) for a user id. -/
structure UserOps where
  findUser : String → Except String (Option UserDoc)
  insertUser : UserDoc → Except String Unit
  touchUser : String → Nat → Except String Unit
  clerkFetch : String → Except String (Option String × Option String × Option String)

/-- The user-record block inside require_auth, app.py lines 93-119: look the
user up; when absent, fetch the profile from Clerk and insert a fresh user
document (a Clerk failure is re-raised as a Clerk API error); when present,
set last_active to now. Any failure propagates to the surrounding except
clause of require_auth. -/
def userRecordBlock (ops : UserOps) (user_id : String) (now : Nat) : Except String Unit := do
  let existing ← ops.findUser user_id
  match existing with
  | none =>
    match ops.clerkFetch user_id with
    | Except.error e => Except.error ("Clerk API error: " ++ e)
    | Except.ok (email, fn, ln) =>
      ops.insertUser
        { user_id := user_id, email := email, first_name := fn, last_name := ln,
          created_at := now, last_active := now }
  | some _ => ops.touchUser user_id now

/-- The possible responses of the require_auth wrapper: the two 401 bodies,
the 500 body produced when the user-record block raises, or the wrapped
handler's result. -/
inductive AuthOutcome (α : Type)
  | missingHeader
  | badToken (details : String)
  | userDbError (details : String)
  | handled (a : α)
deriving DecidableEq, Repr

/-- Whether the first character list starts the second, character by
character: the Python startswith test over the underlying characters. -/
def isHeadOf : List Char → List Char → Bool
  | [], _ => true
  | _ :: _, [] => false
  | a :: as, b :: bs => a == b && isHeadOf as bs

/-- Python startswith with the literal Bearer-and-space marker used by
require_auth. -/
def bearerCheck (h : String) : Bool :=
  isHeadOf "Bearer ".data h.data

/-- Python split on a single space over character lists, keeping empty
pieces, with the piece accumulated so far as second argument. -/
def splitChars : List Char → List Char → List (List Char)
  | [], acc => [acc.reverse]
  | c :: cs, acc =>
    if c == ' ' then acc.reverse :: splitChars cs []
    else splitChars cs (c :: acc)

/-- Python split-on-space of a string. -/
def pySplitSpace (s : String) : List String :=
  (splitChars s.data []).map (fun l => String.mk l)

/-- The require_auth decorator, app.py lines 80-130: reject a missing or
non-Bearer Authorization header with 401, verify the token (verify models
verify_token and yields the sub claim; the token is the piece after the
first space), run the user-record block whose own except clause turns any
failure into a 500 Failed-to-process-user-data response, and only then
invoke the wrapped handler f. -/
def require_auth {α : Type} (authHeader : Option String)
    (verify : String → Except String String) (ops : UserOps) (now : Nat)
    (f : String → α) : AuthOutcome α :=
  match authHeader with
  | none => AuthOutcome.missingHeader
  | some h =>
    if !(bearerCheck h) then AuthOutcome.missingHeader
    else
      let token := (pySplitSpace h).getD 1 ""
      match verify token with
      | Except.error e => AuthOutcome.badToken e
      | Except.ok user_id =>
        match userRecordBlock ops user_id now with
        | Except.error e => AuthOutcome.userDbError e
        | Except.ok _ => AuthOutcome.handled (f user_id)

/-- The [user, bot] message pair one chat turn appends. -/
def turnPair (msg rep : String) : List StoredMessage :=
  [⟨"user", msg⟩, ⟨"bot", rep⟩]

/-- The messages a sequence of chat turns appends, in order. -/
def turnsMessages (turns : List (String × String)) : List StoredMessage :=
  match turns with
  | [] => []
  | t :: rest => turnPair t.1 t.2 ++ turnsMessages rest

/-- A sequence of persisted chat turns (is_temp false) all carrying the same
caller-supplied conversation_id, each with its own user message and model
reply, threaded through the store. Each turn's only store effect on this
path is the single update_one call in chat, which is one atomic Mongo
operation, so every interleaving of concurrent turns acts on the collection
as some sequential order of these steps. -/
def chatSeq (cid : String) (now : Nat) (turns : List (String × String))
    (store : ConvoStore) : ConvoStore :=
  match turns with
  | [] => store
  | (msg, rep) :: rest =>
    chatSeq cid now rest
      ((chat (fun _ => Except.ok rep) "" now store ⟨msg, some cid, some false⟩).store)

/-- The updated_at a document ends with after a sequence of turns stamped
now: unchanged when there are no turns. -/
def lastUpdated (d : ConvoDoc) (now : Nat) (turns : List (String × String)) : Nat :=
  match turns with
  | [] => d.updated_at
  | _ :: _ => now

/-- A UserOps instance whose users-collection lookup raises, modelling an
unavailable Mongo store during the user-record block of require_auth. -/
def failingUserOps : UserOps :=
  { findUser := fun _ => Except.error "store unavailable"
    insertUser := fun _ => Except.ok ()
    touchUser := fun _ _ => Except.ok ()
    clerkFetch := fun _ => Except.ok (none, none, none) }

/-- update_one leaves the collection unchanged when no document matches the
filter: Mongo update_one without upsert matches nothing and creates
nothing. -/
theorem update_one_no_match (p : ConvoDoc → Bool) (f : ConvoDoc → ConvoDoc)
    (store : ConvoStore) (h : ∀ x ∈ store, p x = false) :
    update_one p f store = store := by
  induction store with
  | nil => rfl
  | cons a as ih =>
    have ha : p a = false := h a (by simp)
    simp [update_one, ha, ih (fun x hx => h x (by simp [hx]))]

/-- update_one rewrites exactly the first matching document and leaves every
other document alone. -/
theorem update_one_found (p : ConvoDoc → Bool) (f : ConvoDoc → ConvoDoc)
    (pre post : ConvoStore) (d : ConvoDoc)
    (hpre : ∀ x ∈ pre, p x = false) (hd : p d = true) :
    update_one p f (pre ++ d :: post) = pre ++ f d :: post := by
  induction pre with
  | nil => simp [update_one, hd]
  | cons a as ih =>
    have ha : p a = false := hpre a (by simp)
    have hrest := ih (fun x hx => hpre x (by simp [hx]))
    simp [update_one, ha, hrest]

/-- One persisted chat turn on a collection whose first document matching the
supplied conversation_id is d pushes exactly the [user, bot] pair onto d's
messages and bumps its updated_at, leaving all other documents and fields
unchanged. Shared stepping lemma for the append theorems below. -/
theorem chat_step_existing (infer : String → Except String String)
    (freshId : String) (now : Nat) (pre post : ConvoStore) (d : ConvoDoc)
    (inputs rep cid : String)
    (hok : infer inputs = Except.ok rep) (hcid : cid ≠ "")
    (hpre : ∀ x ∈ pre, x.conversation_id ≠ cid) (hd : d.conversation_id = cid) :
    chat infer freshId now (pre ++ d :: post) ⟨inputs, some cid, some false⟩
      = ⟨200, ChatBody.ok rep (some cid),
          pre ++ (⟨d.conversation_id, d.user_id, d.title,
              d.messages ++ turnPair inputs rep, d.created_at, now⟩ : ConvoDoc) :: post⟩ := by
  have hupd := update_one_found (fun x => x.conversation_id == cid)
    (fun x =>
      { x with
        messages := x.messages ++ [⟨"user", inputs⟩, ⟨"bot", rep⟩]
        updated_at := now }) pre post d
    (fun x hx => by simpa using hpre x hx) (by simpa using hd)
  simp [chat, hok, hcid, hupd, turnPair]

/-- C2. When the inference call raises, the chat route returns a 500 error
body carrying the upstream detail, invents no response text, and leaves the
conversations collection exactly as it was, for every request (any is_temp,
any conversation_id). -/
theorem chat_inference_failure (infer : String → Except String String)
    (freshId : String) (now : Nat) (store : ConvoStore) (req : ChatRequest)
    (e : String) (h : infer req.inputs = Except.error e) :
    chat infer freshId now store req
      = ⟨500, ChatBody.err "Model inference failed" e, store⟩ := by
  simp [chat, h]

/-- Witness for C2: a concrete failing inference call on a persisted request
with a conversation id. -/
theorem chat_inference_failure_witness :
    chat (fun _ => Except.error "boom") "f1" 4 [] ⟨"Hello", some "c1", some false⟩
      = ⟨500, ChatBody.err "Model inference failed" "boom", []⟩ :=
  chat_inference_failure (fun _ => Except.error "boom") "f1" 4 [] ⟨"Hello", some "c1", some false⟩
    "boom" rfl

/-- C3. A chat request carrying is_temp true is handled as transient: the
collection is returned unchanged (no write at all) and the body holds the
response text with no conversation id. -/
theorem chat_transient (infer : String → Except String String)
    (freshId : String) (now : Nat) (store : ConvoStore) (req : ChatRequest)
    (rep : String) (htemp : req.is_temp = some true)
    (hok : infer req.inputs = Except.ok rep) :
    chat infer freshId now store req = ⟨200, ChatBody.ok rep none, store⟩ := by
  simp [chat, hok, htemp]

/-- Witness for C3: a transient request over a non-empty store. -/
theorem chat_transient_witness :
    chat (fun _ => Except.ok "Hi") "f1" 4 [⟨"c1", none, "t", [], 0, 0⟩]
        ⟨"Hello", some "c1", some true⟩
      = ⟨200, ChatBody.ok "Hi" none, [⟨"c1", none, "t", [], 0, 0⟩]⟩ :=
  chat_transient (fun _ => Except.ok "Hi") "f1" 4 [⟨"c1", none, "t", [], 0, 0⟩]
    ⟨"Hello", some "c1", some true⟩ "Hi" rfl rfl

/-- C9. A chat request whose body omits is_temp defaults it to true and is
handled as transient: no write to the collection and a body holding only the
response text, with no conversation id. -/
theorem chat_default_is_temp (infer : String → Except String String)
    (freshId : String) (now : Nat) (store : ConvoStore) (req : ChatRequest)
    (rep : String) (habs : req.is_temp = none)
    (hok : infer req.inputs = Except.ok rep) :
    chat infer freshId now store req = ⟨200, ChatBody.ok rep none, store⟩ := by
  simp [chat, hok, habs]

/-- Witness for C9: a request with the is_temp key absent. -/
theorem chat_default_is_temp_witness :
    chat (fun _ => Except.ok "Hi") "f1" 4 [⟨"c1", none, "t", [], 0, 0⟩]
        ⟨"Hello", none, none⟩
      = ⟨200, ChatBody.ok "Hi" none, [⟨"c1", none, "t", [], 0, 0⟩]⟩ :=
  chat_default_is_temp (fun _ => Except.ok "Hi") "f1" 4 [⟨"c1", none, "t", [], 0, 0⟩]
    ⟨"Hello", none, none⟩ "Hi" rfl rfl

/-- C10. A save-convo request in which any of the four fields is absent or
falsy (empty string or empty list included) is rejected with a 400
Missing-fields error and the conversations collection is unchanged. -/
theorem save_convo_missing_fields (now : Nat) (store : ConvoStore)
    (req : SaveConvoRequest)
    (h : truthyStr req.conversationId = false ∨ truthyStr req.userId = false
        ∨ truthyStr req.title = false ∨ truthyList req.messages = false) :
    save_convo now store req = ⟨400, SaveBody.err "Missing fields", store⟩ := by
  unfold save_convo
  rcases h with h | h | h | h <;> simp [h]

/-- Witness for C10: an empty-string title is rejected and the store is
untouched. -/
theorem save_convo_missing_fields_witness :
    save_convo 3 [⟨"c1", some "u1", "t", [], 0, 0⟩]
        ⟨some "c1", some "u1", some "", some [⟨"user", "x"⟩]⟩
      = ⟨400, SaveBody.err "Missing fields", [⟨"c1", some "u1", "t", [], 0, 0⟩]⟩ :=
  save_convo_missing_fields 3 [⟨"c1", some "u1", "t", [], 0, 0⟩]
    ⟨some "c1", some "u1", some "", some [⟨"user", "x"⟩]⟩
    (Or.inr (Or.inr (Or.inl (by decide))))

/-- Counterexample to C1 as stated: a persisted chat request (is_temp false)
carrying conversation_id c1 over an empty collection returns 200 with the
supplied id, yet no conversation is created — the collection is unchanged
(empty), because the update_one call has no upsert flag. -/
theorem chat_unknown_id_counterexample :
    chat (fun _ => Except.ok "Hi") "f1" 3 [] ⟨"Hello", some "c1", some false⟩
      = ⟨200, ChatBody.ok "Hi" (some "c1"), []⟩ := by
  rfl

/-- C1 amended: when a persisted chat request supplies a conversation_id
that matches no document, the update matches nothing, the collection is left
completely unchanged (no record is created), and the response still returns
200 with the supplied conversationId. -/
theorem chat_unknown_id_no_create (infer : String → Except String String)
    (freshId : String) (now : Nat) (store : ConvoStore) (inputs rep cid : String)
    (hok : infer inputs = Except.ok rep) (hcid : cid ≠ "")
    (hmiss : ∀ x ∈ store, x.conversation_id ≠ cid) :
    chat infer freshId now store ⟨inputs, some cid, some false⟩
      = ⟨200, ChatBody.ok rep (some cid), store⟩ := by
  have hupd : update_one (fun d => d.conversation_id == cid)
      (fun d =>
        { d with
          messages := d.messages ++ [⟨"user", inputs⟩, ⟨"bot", rep⟩]
          updated_at := now }) store = store :=
    update_one_no_match _ _ store (fun x hx => by simpa using hmiss x hx)
  simp [chat, hok, hcid, hupd]

/-- Witness for the amended C1: a store holding an unrelated conversation is
returned unchanged. -/
theorem chat_unknown_id_no_create_witness :
    chat (fun _ => Except.ok "Hi") "f1" 3 [⟨"other", none, "t", [], 0, 0⟩]
        ⟨"Hello", some "c1", some false⟩
      = ⟨200, ChatBody.ok "Hi" (some "c1"), [⟨"other", none, "t", [], 0, 0⟩]⟩ :=
  chat_unknown_id_no_create (fun _ => Except.ok "Hi") "f1" 3
    [⟨"other", none, "t", [], 0, 0⟩] "Hello" "Hi" "c1" rfl (by decide)
    (by intro x hx; simp at hx; simp [hx])

/-- C4. A persisted chat turn with no conversation_id supplied appends one
new document to the collection: its title is the first 50 characters of the
user message, its messages are exactly the [user, bot] pair in order, its
created_at and updated_at are now, and the returned conversationId is the
freshly minted uuid, which is non-empty. -/
theorem chat_new_conversation (infer : String → Except String String)
    (freshId : String) (now : Nat) (store : ConvoStore) (inputs rep : String)
    (hok : infer inputs = Except.ok rep) (hne : freshId ≠ "")
    (hfresh : ∀ x ∈ store, x.conversation_id ≠ freshId) :
    chat infer freshId now store ⟨inputs, none, some false⟩
      = ⟨200, ChatBody.ok rep (some freshId),
          store ++ [⟨freshId, none, inputs.take 50,
            [⟨"user", inputs⟩, ⟨"bot", rep⟩], now, now⟩]⟩
      ∧ freshId ≠ "" := by
  refine ⟨?_, hne⟩
  have hany : store.any (fun x => x.conversation_id == freshId) = false := by
    rw [List.any_eq_false]
    intro x hx
    simpa using hfresh x hx
  simp [chat, hok, insert_one, hany]

set_option maxRecDepth 4096 in
/-- Witness for C4: the scenario from the spec, user message Hello and reply
Hi there, on an empty store. -/
theorem chat_new_conversation_witness :
    chat (fun _ => Except.ok "Hi there") "conv-1" 7 [] ⟨"Hello", none, some false⟩
      = ⟨200, ChatBody.ok "Hi there" (some "conv-1"),
          [⟨"conv-1", none, "Hello", [⟨"user", "Hello"⟩, ⟨"bot", "Hi there"⟩], 7, 7⟩]⟩
      ∧ ("conv-1" : String) ≠ "" :=
  chat_new_conversation (fun _ => Except.ok "Hi there") "conv-1" 7 [] "Hello" "Hi there"
    rfl (by decide) (by simp)

/-- Counterexample to C6 as stated: messages are not append-only across all
operations of the repository. A save-convo request on an existing
conversation holding the two-message history replaces the whole messages
field with the caller-supplied single message (and the history shrinks from
two messages to one). -/
theorem save_convo_replaces_messages :
    (save_convo 9 [⟨"c1", none, "Hello", [⟨"user", "Hello"⟩, ⟨"bot", "Hi there"⟩], 0, 0⟩]
        ⟨some "c1", some "u1", some "T", some [⟨"user", "Bye"⟩]⟩).store
      = [⟨"c1", some "u1", "T", [⟨"user", "Bye"⟩], 0, 9⟩]
      ∧ ([⟨"user", "Bye"⟩] : List StoredMessage).length
          < ([⟨"user", "Hello"⟩, ⟨"bot", "Hi there"⟩] : List StoredMessage).length := by
  exact ⟨by rfl, by decide⟩

/-- C6 amended: the chat route's persisted-turn path is append-only and
appends exactly one user message immediately followed by one bot message,
preserving prior order and all other fields; but save-convo overwrites the
entire messages field with the caller-supplied list, so append-only does not
hold across all operations. This theorem proves the chat half. -/
theorem chat_append_pair (infer : String → Except String String)
    (freshId : String) (now : Nat) (pre post : ConvoStore) (d : ConvoDoc)
    (inputs rep cid : String)
    (hok : infer inputs = Except.ok rep) (hcid : cid ≠ "")
    (hpre : ∀ x ∈ pre, x.conversation_id ≠ cid) (hd : d.conversation_id = cid) :
    chat infer freshId now (pre ++ d :: post) ⟨inputs, some cid, some false⟩
      = ⟨200, ChatBody.ok rep (some cid),
          pre ++ (⟨d.conversation_id, d.user_id, d.title,
              d.messages ++ [⟨"user", inputs⟩, ⟨"bot", rep⟩],
              d.created_at, now⟩ : ConvoDoc) :: post⟩ :=
  chat_step_existing infer freshId now pre post d inputs rep cid hok hcid hpre hd

/-- Witness for the amended C6: a second turn appended to the Hello
conversation keeps the first pair and adds the new pair after it. -/
theorem chat_append_pair_witness :
    chat (fun _ => Except.ok "Sure") "f1" 8
        [⟨"c1", none, "Hello", [⟨"user", "Hello"⟩, ⟨"bot", "Hi there"⟩], 0, 0⟩]
        ⟨"Help me", some "c1", some false⟩
      = ⟨200, ChatBody.ok "Sure" (some "c1"),
          [⟨"c1", none, "Hello",
            [⟨"user", "Hello"⟩, ⟨"bot", "Hi there"⟩, ⟨"user", "Help me"⟩, ⟨"bot", "Sure"⟩],
            0, 8⟩]⟩ :=
  chat_append_pair (fun _ => Except.ok "Sure") "f1" 8 []
    [] ⟨"c1", none, "Hello", [⟨"user", "Hello"⟩, ⟨"bot", "Hi there"⟩], 0, 0⟩
    "Help me" "Sure" "c1" rfl (by decide) (by simp) rfl

/-- The messages a sequence of turns appends number exactly two per turn. -/
theorem turnsMessages_len (turns : List (String × String)) :
    (turnsMessages turns).length = 2 * turns.length := by
  induction turns with
  | nil => rfl
  | cons t rest ih =>
    simp only [turnsMessages, turnPair, List.length_append, List.length_cons,
      List.length_nil, ih]
    omega

/-- Counterexample to C7 as stated: one persisted turn targeting the pair
(owner, c9) when no record exists yields no conversation record at all — the
update_one call has no upsert, so the turn's pair is lost instead of there
being exactly one record of two messages. -/
theorem chatSeq_lost_turn :
    chatSeq "c9" 7 [("q1", "a1")] [] = []
      ∧ ¬ ∃ d : ConvoDoc, chatSeq "c9" 7 [("q1", "a1")] [] = [d]
          ∧ d.messages.length = 2 := by
  have h : chatSeq "c9" 7 [("q1", "a1")] [] = [] := rfl
  refine ⟨h, ?_⟩
  rintro ⟨d, hd, -⟩
  rw [h] at hd
  simp at hd

/-- C7 amended: when a conversation record for the supplied conversation_id
already exists, each persisted turn's sole store effect is one atomic
update_one pushing its [user, bot] pair and bumping updated_at, so any
sequence of N such turns (hence any interleaving of N concurrent ones, each
step being a single atomic Mongo operation) leaves exactly one matching
record holding all N pairs — 2N appended messages — with no duplicate
record; but when no record exists the update matches nothing and the pairs
are lost (see the counterexample). -/
theorem chatSeq_existing_record (cid : String) (now : Nat)
    (turns : List (String × String)) (pre post : ConvoStore) (d : ConvoDoc)
    (hcid : cid ≠ "") (hpre : ∀ x ∈ pre, x.conversation_id ≠ cid)
    (hd : d.conversation_id = cid) :
    chatSeq cid now turns (pre ++ d :: post)
      = pre ++ (⟨d.conversation_id, d.user_id, d.title,
          d.messages ++ turnsMessages turns, d.created_at,
          lastUpdated d now turns⟩ : ConvoDoc) :: post
      ∧ (turnsMessages turns).length = 2 * turns.length := by
  refine ⟨?_, turnsMessages_len turns⟩
  induction turns generalizing d hd with
  | nil =>
    simp [chatSeq, turnsMessages, lastUpdated]
  | cons t rest ih =>
    obtain ⟨msg, rep⟩ := t
    have hstep := chat_step_existing (fun _ => Except.ok rep) "" now pre post d
      msg rep cid rfl hcid hpre hd
    have hmid := ih (⟨d.conversation_id, d.user_id, d.title,
      d.messages ++ turnPair msg rep, d.created_at, now⟩ : ConvoDoc) hd
    simp only [chatSeq, hstep]
    rw [hmid]
    cases rest with
    | nil => simp [turnsMessages, lastUpdated]
    | cons u us => simp [turnsMessages, lastUpdated, List.append_assoc]

/-- Witness for the amended C7: two turns on a store holding exactly the
targeted conversation append both pairs, in order, to the one record. -/
theorem chatSeq_existing_record_witness :
    chatSeq "c1" 5 [("a", "b"), ("c", "e")] [⟨"c1", none, "t", [], 0, 0⟩]
      = [⟨"c1", none, "t",
          [⟨"user", "a"⟩, ⟨"bot", "b"⟩, ⟨"user", "c"⟩, ⟨"bot", "e"⟩], 0, 5⟩]
      ∧ (turnsMessages [("a", "b"), ("c", "e")]).length
          = 2 * ([("a", "b"), ("c", "e")] : List (String × String)).length :=
  chatSeq_existing_record "c1" 5 [("a", "b"), ("c", "e")] [] []
    ⟨"c1", none, "t", [], 0, 0⟩ (by decide) (by simp) rfl

set_option maxRecDepth 4096 in
/-- Counterexample to C5 as stated: the document the chat route inserts for
a fresh persisted conversation carries no owner field at all — its user_id
is absent — so not every persisted conversation record carries an ownerId
alongside the other fields. -/
theorem chat_created_doc_ownerless :
    (chat (fun _ => Except.ok "Hi there") "conv-9" 5 [] ⟨"Hello", none, some false⟩).store
      = [⟨"conv-9", none, "Hello", [⟨"user", "Hello"⟩, ⟨"bot", "Hi there"⟩], 5, 5⟩]
      ∧ (⟨"conv-9", none, "Hello", [⟨"user", "Hello"⟩, ⟨"bot", "Hi there"⟩], 5, 5⟩
          : ConvoDoc).user_id = none := by
  exact ⟨rfl, rfl⟩

/-- C5 amended: documents inserted by save-convo carry a user_id alongside
conversation_id, title, messages and both timestamps, but documents created
by the chat route carry no owner field (user_id absent); and the unique
index is on conversation_id alone, so inserting any document whose
conversation_id already exists fails with a duplicate key regardless of its
user_id — conversations are unique per conversationId, not per
(conversationId, ownerId) pair, and no owner-scoped fetch exists in this
code. -/
theorem conversation_owner_and_uniqueness
    (inputs rep fid cid uid t : String) (msgs : List StoredMessage) (now : Nat)
    (store : ConvoStore) (d e : ConvoDoc)
    (hcid : cid ≠ "") (huid : uid ≠ "") (ht : t ≠ "") (hm : msgs ≠ [])
    (hmem : d ∈ store) (heq : e.conversation_id = d.conversation_id) :
    (chat (fun _ => Except.ok rep) fid now [] ⟨inputs, none, some false⟩).store
      = [⟨fid, none, inputs.take 50, [⟨"user", inputs⟩, ⟨"bot", rep⟩], now, now⟩]
    ∧ (save_convo now [] ⟨some cid, some uid, some t, some msgs⟩).store
      = [⟨cid, some uid, t, msgs, now, now⟩]
    ∧ insert_one e store = Except.error "duplicate key" := by
  refine ⟨?_, ?_, ?_⟩
  · simp [chat, insert_one]
  · have h1 : (cid == "") = false := by simp [hcid]
    have h2 : (uid == "") = false := by simp [huid]
    have h3 : (t == "") = false := by simp [ht]
    have h4 : msgs.isEmpty = false := by
      cases msgs with
      | nil => exact absurd rfl hm
      | cons a as => rfl
    simp [save_convo, truthyStr, truthyList, h1, h2, h3, h4, find_one, insert_one]
  · have hany : store.any (fun x => x.conversation_id == e.conversation_id) = true :=
      List.any_eq_true.mpr ⟨d, hmem, by simp [heq]⟩
    simp [insert_one, hany]

set_option maxRecDepth 4096 in
/-- Witness for the amended C5: a chat-created document with no owner, a
save-convo document carrying u1, and a duplicate-key failure when a document
for c1 owned by a different user u2 is inserted. -/
theorem conversation_owner_and_uniqueness_witness :
    (chat (fun _ => Except.ok "Hi there") "f1" 2 [] ⟨"Hello", none, some false⟩).store
      = [⟨"f1", none, "Hello", [⟨"user", "Hello"⟩, ⟨"bot", "Hi there"⟩], 2, 2⟩]
    ∧ (save_convo 2 [] ⟨some "c1", some "u1", some "T", some [⟨"user", "m"⟩]⟩).store
      = [⟨"c1", some "u1", "T", [⟨"user", "m"⟩], 2, 2⟩]
    ∧ insert_one ⟨"c1", some "u2", "X", [], 9, 9⟩ [⟨"c1", some "u1", "T", [], 0, 0⟩]
      = Except.error "duplicate key" :=
  conversation_owner_and_uniqueness "Hello" "Hi there" "f1" "c1" "u1" "T"
    [⟨"user", "m"⟩] 2 [⟨"c1", some "u1", "T", [], 0, 0⟩]
    ⟨"c1", some "u1", "T", [], 0, 0⟩ ⟨"c1", some "u2", "X", [], 9, 9⟩
    (by decide) (by decide) (by decide) (by decide) (by simp) rfl

/-- Counterexample to C8 as stated: when the users-collection lookup inside
require_auth raises, the request does not proceed — the wrapper answers with
the 500 Failed-to-process-user-data response instead of the wrapped
handler's result, so the side effect is not best-effort. -/
theorem require_auth_db_failure_counterexample :
    require_auth (some "Bearer tok") (fun _ => Except.ok "u1") failingUserOps 0
        (fun u => u)
      = AuthOutcome.userDbError "store unavailable"
      ∧ require_auth (some "Bearer tok") (fun _ => Except.ok "u1") failingUserOps 0
          (fun u => u)
        ≠ AuthOutcome.handled "u1" := by
  have h : require_auth (some "Bearer tok") (fun _ => Except.ok "u1") failingUserOps 0
      (fun u => u) = AuthOutcome.userDbError "store unavailable" := by rfl
  exact ⟨h, by rw [h]; simp⟩

/-- C8 amended: a failure of the user-record block is not swallowed — for
every authenticated request whose user-record store operation raises,
require_auth returns the 500 Failed-to-process-user-data response carrying
the detail and the wrapped handler never runs. -/
theorem require_auth_db_failure_500 {α : Type} (h : String)
    (verify : String → Except String String) (ops : UserOps) (now : Nat)
    (f : String → α) (user_id e : String)
    (hh : bearerCheck h = true)
    (hv : verify ((pySplitSpace h).getD 1 "") = Except.ok user_id)
    (hdb : userRecordBlock ops user_id now = Except.error e) :
    require_auth (some h) verify ops now f = AuthOutcome.userDbError e := by
  have hv1 : verify ((pySplitSpace h)[1]?.getD "") = Except.ok user_id := by
    rw [← List.getD_eq_getElem?_getD]
    exact hv
  simp [require_auth, hh, hv1, hdb]

/-- Witness for the amended C8: a concrete bearer request over the failing
store ends in the 500 outcome. -/
theorem require_auth_db_failure_500_witness :
    require_auth (some "Bearer tok") (fun _ => Except.ok "u1") failingUserOps 3
        (fun u => u)
      = AuthOutcome.userDbError "store unavailable" :=
  require_auth_db_failure_500 "Bearer tok" (fun _ => Except.ok "u1") failingUserOps 3
    (fun u => u) "u1" "store unavailable" (by decide) rfl rfl

end JudiciAIre
